import Mathlib

/-!
# Verification of the esmerald handler-dispatch core (`esmerald/routing/base.py`)

Shallow embedding of the handler dispatch pipeline: ownership-layer walks
(dependencies, permissions, exception handlers), the cookie/header merge
primitives, and the response-coercion handler factories, together with
theorems settling the frozen claims about them.

Python dicts are embedded as ordered association lists (`List (String × α)`)
with insertion-order preserving assignment (`dictAssign`: overwrite the
existing binding in place, keeping its position, else append) and
first-match lookup (`dictLookup`), mirroring CPython dict semantics on the
unique-key lists that Python dicts produce.  The `Void` sentinel used for
the single-slot caches is embedded as `Option` (`none` = `Void`).
-/

namespace Esmerald

/-- `d[k] = v` on a Python dict: overwrite the binding of `k` in place when
present (keeping its original position), otherwise append at the end. -/
def dictAssign {α : Type} : List (String × α) → String → α → List (String × α)
  | [], k, v => [(k, v)]
  | p :: rest, k, v => if p.1 = k then (k, v) :: rest else p :: dictAssign rest k v

/-- `d.get(k)` / `d[k]`: the value bound to `k`, if any. -/
def dictLookup {α : Type} : List (String × α) → String → Option α
  | [], _ => none
  | p :: rest, k => if p.1 = k then some p.2 else dictLookup rest k

/-- `d.update(pairs)` / `{**d, **pairs}` / a `d[k] = v` loop over `pairs`:
assign each pair of `pairs` into `d`, in order. -/
def dictUpdate {α : Type} (d : List (String × α)) (pairs : List (String × α)) :
    List (String × α) :=
  pairs.foldl (fun acc p => dictAssign acc p.1 p.2) d

/-- Lookup after Python dict assignment `d[k] = v`. -/
theorem dictLookup_assign {α : Type} (d : List (String × α)) (k : String) (v : α)
    (k' : String) :
    dictLookup (dictAssign d k v) k' = if k' = k then some v else dictLookup d k' := by
  induction d with
  | nil =>
      by_cases h : k' = k
      · subst h; simp [dictAssign, dictLookup]
      · simp only [dictAssign, dictLookup]
        rw [if_neg (fun hh => h hh.symm), if_neg h]
  | cons p rest ih =>
      by_cases hp : p.1 = k
      · subst hp
        by_cases h : k' = p.1
        · subst h; simp [dictAssign, dictLookup]
        · simp only [dictAssign, dictLookup, if_pos rfl]
          rw [if_neg (fun hh => h hh.symm), if_neg h, if_neg (fun hh => h hh.symm)]
      · by_cases h1 : p.1 = k'
        · have h2 : ¬ k' = k := fun hh => hp (h1.trans hh)
          simp [dictAssign, dictLookup, hp, h1, h2]
        · by_cases h2 : k' = k
          · subst h2; simp [dictAssign, dictLookup, hp, h1, ih]
          · simp [dictAssign, dictLookup, hp, h1, h2, ih]

theorem dictLookup_append {α : Type} (d₁ d₂ : List (String × α)) (k : String) :
    dictLookup (d₁ ++ d₂) k =
      (dictLookup d₁ k).orElse (fun _ => dictLookup d₂ k) := by
  induction d₁ with
  | nil => simp [dictLookup, Option.orElse]
  | cons p rest ih =>
      by_cases hp : p.1 = k <;> simp [dictLookup, hp, ih, Option.orElse]

/-- Lookup after a Python dict `update`: the updating pairs win (the last
occurrence of a key among `pairs` winning within them), otherwise the
original binding survives. -/
theorem dictLookup_update {α : Type} (d : List (String × α))
    (pairs : List (String × α)) (k : String) :
    dictLookup (dictUpdate d pairs) k =
      (dictLookup pairs.reverse k).orElse (fun _ => dictLookup d k) := by
  induction pairs generalizing d with
  | nil => simp [dictUpdate, dictLookup, Option.orElse]
  | cons p rest ih =>
      rw [dictUpdate, List.foldl_cons, ← dictUpdate, ih (dictAssign d p.1 p.2)]
      rw [List.reverse_cons, dictLookup_append, dictLookup_assign]
      cases hres : dictLookup rest.reverse k with
      | some v => simp [Option.orElse]
      | none =>
          simp only [Option.orElse, dictLookup]
          by_cases hk : p.1 = k
          · rw [if_pos hk, if_pos hk.symm]
          · rw [if_neg hk, if_neg (fun hh => hk hh.symm)]

/-! ## Cookies (`esmerald/datastructures/base.py`, class `Cookie`) -/

/-- A value occurring in a serialized cookie mapping (pydantic stores
strings, ints and bools in `Cookie`'s fields). -/
inductive CVal where
  | s (v : String)
  | i (v : Int)
  | b (v : Bool)
deriving DecidableEq

/-- `Cookie` pydantic model: field declarations and defaults exactly as in
`esmerald/datastructures/base.py`. -/
structure Cookie where
  key : String
  value : Option String := none
  max_age : Option Int := none
  expires : Option Int := none
  path : String := "/"
  domain : Option String := none
  secure : Option Bool := none
  httponly : Option Bool := none
  samesite : String := "lax"
  description : Option String := none
deriving DecidableEq

/-- The fields of a `Cookie` in declaration order, each with its (possibly
unset) value, with `description` marked by `none` at the call below being
excluded: helper for `Cookie.dict`. -/
def Cookie.dictEntries (c : Cookie) : List (String × Option CVal) :=
  [("key", some (.s c.key)),
   ("value", c.value.map .s),
   ("max_age", c.max_age.map .i),
   ("expires", c.expires.map .i),
   ("path", some (.s c.path)),
   ("domain", c.domain.map .s),
   ("secure", c.secure.map .b),
   ("httponly", c.httponly.map .b),
   ("samesite", some (.s c.samesite))]

/-- `cookie.dict(exclude_none=True, exclude={"description"})` (pydantic):
the cookie's fields in declaration order, fields whose value is unset
(`None`) dropped, and the `description` field excluded. -/
def Cookie.dict (c : Cookie) : List (String × CVal) :=
  c.dictEntries.filterMap (fun kv => kv.2.map (fun v => (kv.1, v)))

/-! ## `BaseHandlerMixin.get_cookies` (`routing/base.py`, lines 503-515) -/

/-- The filtering loop of `get_cookies`:
`filtered_cookies = [*local_cookies]` followed by
`for cookie in other_cookies: if not any(cookie.key == c.key for c in
filtered_cookies): filtered_cookies.append(cookie)`. -/
def filteredCookies (local_cookies other_cookies : List Cookie) : List Cookie :=
  other_cookies.foldl
    (fun filtered cookie =>
      if filtered.any (fun c => cookie.key == c.key) then filtered
      else filtered ++ [cookie])
    local_cookies

/-- `get_cookies(local_cookies, other_cookies)`: keep all local cookies,
append the other cookies whose key is not yet present, then normalize each
kept cookie with `cookie.dict(exclude_none=True, exclude={"description"})`. -/
def get_cookies (local_cookies other_cookies : List Cookie) :
    List (List (String × CVal)) :=
  (filteredCookies local_cookies other_cookies).map Cookie.dict

/-- Reference recursion for the appended "other" cookies: an other cookie is
kept exactly when its key is neither among `seen` (the keys of the local
cookies) nor the key of an other cookie already kept before it. -/
def keptOthers (seen : List String) : List Cookie → List Cookie
  | [] => []
  | c :: rest =>
      if seen.contains c.key then keptOthers seen rest
      else c :: keptOthers (seen ++ [c.key]) rest

theorem filteredCookies_eq_keptOthers (local_cookies other_cookies : List Cookie) :
    filteredCookies local_cookies other_cookies =
      local_cookies ++ keptOthers (local_cookies.map (·.key)) other_cookies := by
  induction other_cookies generalizing local_cookies with
  | nil => simp [filteredCookies, keptOthers]
  | cons c rest ih =>
      have hcond : (local_cookies.any (fun c2 => c.key == c2.key)) =
          (local_cookies.map (·.key)).contains c.key := by
        induction local_cookies with
        | nil => rfl
        | cons q qrest ihq =>
            by_cases hq : c.key = q.key <;>
              simp [List.any_cons, List.contains_cons, ihq, hq, beq_iff_eq]
      have hstep : filteredCookies local_cookies (c :: rest) =
          filteredCookies
            (if local_cookies.any (fun c2 => c.key == c2.key) then local_cookies
             else local_cookies ++ [c]) rest := rfl
      by_cases hmem : (local_cookies.map (·.key)).contains c.key = true
      · rw [hstep, if_pos (hcond.trans hmem), ih]
        simp only [keptOthers, if_pos hmem]
      · have hfalse : ¬ (local_cookies.any (fun c2 => c.key == c2.key) = true) :=
          fun h => hmem (hcond ▸ h)
        rw [hstep, if_neg hfalse, ih]
        simp only [keptOthers, if_neg hmem, List.map_append, List.map_cons,
          List.map_nil, List.append_assoc, List.cons_append, List.nil_append]

/-- The keys appearing in the serialized mapping of a cookie: always `key`,
`path` and `samesite` (non-optional fields), each optional field exactly when
set, and never `description`. -/
theorem Cookie.dict_keys (c : Cookie) :
    (Cookie.dict c).map Prod.fst =
      ["key"] ++ (if c.value.isSome then ["value"] else [])
        ++ (if c.max_age.isSome then ["max_age"] else [])
        ++ (if c.expires.isSome then ["expires"] else [])
        ++ ["path"]
        ++ (if c.domain.isSome then ["domain"] else [])
        ++ (if c.secure.isSome then ["secure"] else [])
        ++ (if c.httponly.isSome then ["httponly"] else [])
        ++ ["samesite"] := by
  obtain ⟨k, v, ma, ex, pa, dom, sec, ho, ss, de⟩ := c
  cases v <;> cases ma <;> cases ex <;> cases dom <;> cases sec <;> cases ho <;> rfl

/-- **C4, counterexample.**  The claim states that `get_cookies` appends an
"other" cookie *exactly when* no **local** cookie shares its key.  Take
`local = []` and `other = [{key:"b",value:"3"}, {key:"b",value:"4"}]`: no
local cookie shares the key `"b"` of the second other cookie, yet its
serialized mapping is absent from the result — the code also deduplicates
the other cookies against the other cookies already appended. -/
theorem get_cookies_other_self_collision :
    (([] : List Cookie).all (fun l => l.key != "b")) = true
    ∧ Cookie.dict { key := "b", value := some "4" } ∉
        get_cookies []
          [{ key := "b", value := some "3" }, { key := "b", value := some "4" }] := by
  constructor
  · rfl
  · decide

/-- **C4** (amended): `get_cookies` keeps all local cookies and appends each
other cookie exactly when no local cookie *nor any previously appended other
cookie* shares its key (`keptOthers`); each kept cookie is serialized by
`cookie.dict(exclude_none=True, exclude={"description"})`, whose keys are the
set fields minus `description` (`Cookie.dict_keys`); on the spec's example,
local `[{key:"a",value:"1"}]` merged with other
`[{key:"a",value:"2"},{key:"b",value:"3"}]` gives
`[{key:"a",value:"1"},{key:"b",value:"3"}]` serialized. -/
theorem get_cookies_correct (local_cookies other_cookies : List Cookie) :
    get_cookies local_cookies other_cookies =
      (local_cookies ++
        keptOthers (local_cookies.map (·.key)) other_cookies).map Cookie.dict
    ∧ (∀ c : Cookie, "description" ∉ (Cookie.dict c).map Prod.fst)
    ∧ get_cookies [{ key := "a", value := some "1" }]
        [{ key := "a", value := some "2" }, { key := "b", value := some "3" }] =
      [Cookie.dict { key := "a", value := some "1" },
       Cookie.dict { key := "b", value := some "3" }] := by
  refine ⟨?_, ?_, ?_⟩
  · rw [get_cookies, filteredCookies_eq_keptOthers]
  · intro c
    rw [Cookie.dict_keys c]
    cases hv : c.value.isSome <;> cases hma : c.max_age.isSome <;>
      cases hex : c.expires.isSome <;> cases hdo : c.domain.isSome <;>
      cases hse : c.secure.isSome <;> cases hht : c.httponly.isSome <;>
      simp
  · decide

/-- Witness for **C4** on the spec's own example lists. -/
theorem get_cookies_correct_witness :
    get_cookies [{ key := "a", value := some "1" }]
        [{ key := "a", value := some "2" }, { key := "b", value := some "3" }] =
      [Cookie.dict { key := "a", value := some "1" },
       Cookie.dict { key := "b", value := some "3" }]
    ∧ get_cookies [{ key := "a", value := some "1" }]
        [{ key := "a", value := some "2" }, { key := "b", value := some "3" }] =
      (([{ key := "a", value := some "1" }] : List Cookie) ++
        keptOthers (([{ key := "a", value := some "1" }] : List Cookie).map
            (fun c : Cookie => c.key))
          [{ key := "a", value := some "2" },
           { key := "b", value := some "3" }]).map Cookie.dict :=
  ⟨(get_cookies_correct [{ key := "a", value := some "1" }]
      [{ key := "a", value := some "2" }, { key := "b", value := some "3" }]).2.2,
   (get_cookies_correct [{ key := "a", value := some "1" }]
      [{ key := "a", value := some "2" }, { key := "b", value := some "3" }]).1⟩

/-! ## Ownership layers and the handler data model -/

/-- A dependency provider (`esmerald.injector.Inject`).  Modelled from the
spec: `esmerald/injector.py` is not under `src/`; per the spec an `Inject`
is "equality-comparable by underlying provider identity", so the embedding
carries the provider identity and compares by it. -/
structure Inject where
  provider : Nat
deriving DecidableEq

/-- One node of the ownership chain as seen by the layer walks: its
`dependencies`, `permissions` and `exception_handlers` configuration
(`layer.dependencies or {}` means a missing mapping is the empty one, which
the embedding folds into the default).  Permissions and exception handlers
are identified by numeric ids; exception handlers are keyed by the
exception-type name. -/
structure Layer where
  dependencies : List (String × Inject) := []
  permissions : List Nat := []
  exception_handlers : List (String × Nat) := []
deriving DecidableEq

/-- The `owner` back-reference chain: a handler, its owner, the owner's
owner, …, terminating at a root with no owner (the spec's no-cycle
invariant is the well-foundedness of this inductive). -/
inductive OwnedNode where
  | root (layer : Layer)
  | node (layer : Layer) (owner : OwnedNode)
deriving DecidableEq

/-- The `while current: layers.append(current); current = current.owner`
loop of `ownership_layers`: the chain from the handler up to the root. -/
def collectOwners : OwnedNode → List Layer
  | .root l => [l]
  | .node l o => l :: collectOwners o

/-- `ownership_layers` (`routing/base.py`, lines 427-436): the layers from
the application root down to the handler (the collected chain, reversed). -/
def ownership_layers (n : OwnedNode) : List Layer :=
  (collectOwners n).reverse

/-- `MediaType` values as they reach the response machinery: either an
`Enum` member (whose `.value` is the wire string) or a plain string. -/
inductive MediaTypeV where
  | enumMember (value : String)
  | plainStr (value : String)
deriving DecidableEq

/-- `self.media_type.value if isinstance(self.media_type, Enum) else
self.media_type` (`get_response_handler`, lines 358-360). -/
def normalizeMediaType : MediaTypeV → String
  | .enumMember v => v
  | .plainStr v => v

/-- `ResponseHeader` (`esmerald/datastructures/base.py`): a declared
response header carrying an optional value. -/
structure ResponseHeader where
  value : Option String := none
deriving DecidableEq

/-- The static facts `is_class_and_subclass(return_annotation, T)` can
report about a handler's declared return-type annotation, one flag per
class tested by `get_response_handler`. -/
structure ReturnAnn where
  subclassOfResponseContainer : Bool := false
  subclassOfJSONResponse : Bool := false
  subclassOfResponse : Bool := false
  subclassOfStarletteResponse : Bool := false
deriving DecidableEq

/-- `AsyncCallable` (`esmerald/utils/sync.py`): wraps a callable so that
invoking it is always asynchronous; the wrapped value is `fn`. -/
structure AsyncCallable (α : Type) where
  fn : α
deriving DecidableEq

/-- The five response-strategy closures `get_response_handler` can build,
each carrying exactly the arguments the corresponding `create_*` factory
closes over (`self.allow_header` is read at call time, not captured). -/
inductive BuiltHandler where
  | containerHandler (cookies : List Cookie) (media_type : MediaTypeV)
      (status_code : Nat) (headers : List (String × ResponseHeader))
  | jsonHandler (status_code : Option Nat)
  | responseHandler (cookies : List Cookie) (status_code : Option Nat)
      (media_type : Option MediaTypeV) (headers : List (String × ResponseHeader))
  | starletteHandler (cookies : List Cookie) (media_type : Option MediaTypeV)
      (headers : List (String × ResponseHeader))
  | plainHandler (background : Option Nat) (cookies : List Cookie)
      (headers : List (String × ResponseHeader)) (media_type : String)
      (response_class_id : Nat) (status_code : Nat)
deriving DecidableEq

/-- A handler (`BaseHandlerMixin` state): its ownership chain (whose first
collected layer is the handler's own configuration), its response
configuration, and the three single-slot `Void`-sentinel caches
(`none` = `Void`). -/
structure Handler where
  chain : OwnedNode := .root {}
  signature_model : Bool := true
  ret_ann : ReturnAnn := {}
  media_type : MediaTypeV := .enumMember "application/json"
  status_code : Nat := 200
  background : Option Nat := none
  response_class_id : Nat := 0
  response_headers : List (String × ResponseHeader) := []
  response_cookies : List Cookie := []
  allow_header : List (String × Option String) := []
  _dependencies : Option (List (String × Inject)) := none
  _permissions : Option (List (AsyncCallable Nat)) := none
  _response_handler : Option BuiltHandler := none
deriving DecidableEq

/-! ## `get_dependencies` / `has_dependency_unique`
(`routing/base.py`, lines 459-490) -/

/-- The errors `get_dependencies` can raise: the `RuntimeError` when no
signature model has been generated, and `ImproperlyConfigured` carrying the
new key and the already-bound key it reports. -/
inductive DependencyError where
  | runtimeError
  | improperlyConfigured (key dependency_key : String)
deriving DecidableEq

/-- `has_dependency_unique(dependencies, key, injector)`: scan the
accumulated mapping in order and fail on the first entry whose value equals
(`==`, provider identity) the injector being added, reporting both keys;
`none` means the check passed. -/
def has_dependency_unique (dependencies : List (String × Inject)) (key : String)
    (injector : Inject) : Option DependencyError :=
  match dependencies.find? (fun p => injector == p.2) with
  | some p => some (.improperlyConfigured key p.1)
  | none => none

/-- The inner loop of `get_dependencies`: for each `(key, value)` of one
layer's dependency mapping, run `has_dependency_unique` against the
accumulated mapping, then `self._dependencies[key] = value`. -/
def addLayerDependencies (acc : List (String × Inject)) :
    List (String × Inject) → Except DependencyError (List (String × Inject))
  | [] => .ok acc
  | (key, value) :: rest =>
      match has_dependency_unique acc key value with
      | some e => .error e
      | none => addLayerDependencies (dictAssign acc key value) rest

/-- The outer loop of `get_dependencies` over `ownership_layers` (root
first). -/
def walkDependencies (acc : List (String × Inject)) :
    List Layer → Except DependencyError (List (String × Inject))
  | [] => .ok acc
  | layer :: rest =>
      match addLayerDependencies acc layer.dependencies with
      | .error e => .error e
      | .ok acc2 => walkDependencies acc2 rest

/-- `get_dependencies` (`routing/base.py`, lines 459-477): raise
`RuntimeError` when no signature model exists; when the `_dependencies`
slot is still `Void`, walk the ownership layers accumulating dependencies
and cache the result; return the cached mapping.  (On a uniqueness failure
CPython leaves the partially built dict in the slot; the embedding leaves
the slot untouched on error — no claim observes the post-error state.) -/
def get_dependencies (h : Handler) :
    Except DependencyError (List (String × Inject)) × Handler :=
  if h.signature_model = false then (.error .runtimeError, h)
  else
    match h._dependencies with
    | some d => (.ok d, h)
    | none =>
        match walkDependencies [] (ownership_layers h.chain) with
        | .error e => (.error e, h)
        | .ok d => (.ok d, { h with _dependencies := some d })

/-- **C1, code bug.**  The claim (and `has_dependency_unique`'s own
docstring, "defined under a *different* key", and its error message, "If
you wish to override a inject, it must have the same key") says only
cross-key duplication of the same provider errors.  But the scan compares
the injector against every accumulated entry including the one under the
*same* key, so two layers binding the same provider under the same key
`"db"` raise `ImproperlyConfigured` naming `"db"` twice instead of letting
the inner layer override silently. -/
theorem get_dependencies_same_key_same_provider_raises :
    (get_dependencies
      { chain := .node { dependencies := [("db", ⟨1⟩)] }
          (.root { dependencies := [("db", ⟨1⟩)] }) }).1 =
      .error (.improperlyConfigured "db" "db") := by
  rfl

/-- **C6.**  `get_dependencies` is idempotent: when the `_dependencies`
slot holds the `Void` sentinel (`none`) and the first call succeeds with
mapping `d` and post-state `h'`, then the slot of `h'` holds `d` and a
second call returns the identical cached mapping and state, without
re-walking the layers. -/
theorem get_dependencies_idempotent (h : Handler)
    (d : List (String × Inject)) (h' : Handler)
    (hcache : h._dependencies = none)
    (hfirst : get_dependencies h = (.ok d, h')) :
    h'._dependencies = some d ∧ get_dependencies h' = (.ok d, h') := by
  cases hsig : h.signature_model with
  | false =>
      rw [get_dependencies, if_pos hsig] at hfirst
      exact absurd (congrArg Prod.fst hfirst) (by simp)
  | true =>
      rw [get_dependencies, if_neg (by rw [hsig]; simp), hcache] at hfirst
      cases hw : walkDependencies [] (ownership_layers h.chain) with
      | error e =>
          rw [hw] at hfirst
          exact absurd (congrArg Prod.fst hfirst) (by simp)
      | ok d0 =>
          rw [hw] at hfirst
          have hd : d0 = d := by
            have := congrArg Prod.fst hfirst
            simpa using this
          have hh : h' = { h with _dependencies := some d } := by
            have := congrArg Prod.snd hfirst
            rw [← hd]; exact this.symm
          subst hd hh
          refine ⟨rfl, ?_⟩
          rw [get_dependencies, if_neg (by simp [hsig])]

/-- A two-layer example chain: the root layer binds `"b"` to provider 2,
the handler layer binds `"a"` to provider 1. -/
def chainAB : OwnedNode :=
  .node { dependencies := [("a", ⟨1⟩)] } (.root { dependencies := [("b", ⟨2⟩)] })

/-- A handler over `chainAB` with all caches still `Void`. -/
def handlerAB : Handler := { chain := chainAB }

/-- `handlerAB` after its dependency cache has been filled. -/
def handlerAB' : Handler :=
  { handlerAB with _dependencies := some [("b", ⟨2⟩), ("a", ⟨1⟩)] }

/-- Witness for **C6** at `handlerAB`: root binds `"b"`, the handler layer
binds `"a"`; the cached mapping is the root-to-leaf accumulation. -/
theorem get_dependencies_idempotent_witness :
    handlerAB._dependencies = none
    ∧ handlerAB'._dependencies = some [("b", ⟨2⟩), ("a", ⟨1⟩)]
    ∧ get_dependencies handlerAB' = (.ok [("b", ⟨2⟩), ("a", ⟨1⟩)], handlerAB') := by
  refine ⟨rfl, ?_⟩
  exact get_dependencies_idempotent handlerAB [("b", ⟨2⟩), ("a", ⟨1⟩)] handlerAB'
    rfl rfl

/-! ## `resolve_permissions` / `allow_connection`
(`routing/base.py`, lines 445-457 and 542-551) -/

/-- The Permission-Denied error `continue_or_raise_permission_exception`
raises. -/
inductive PermissionError where
  | permissionDenied
deriving DecidableEq

/-- `resolve_permissions` (`routing/base.py`, lines 445-457): when the
`_permissions` slot is `Void`, extend an empty list with each ownership
layer's permissions (root first, declaration order within a layer), wrap
each in `AsyncCallable`, and cache; return the cached list. -/
def resolve_permissions (h : Handler) : List (AsyncCallable Nat) × Handler :=
  match h._permissions with
  | some ps => (ps, h)
  | none =>
      let perms := (ownership_layers h.chain).foldl
        (fun acc layer => acc ++ layer.permissions) []
      let ps := perms.map AsyncCallable.mk
      (ps, { h with _permissions := some ps })

/-- Modelled from the spec: `continue_or_raise_permission_exception`
(`esmerald/permissions/utils.py`, which is not under `src/`) raises a
Permission-Denied error when the permission's
`has_permission(connection, handler)` check is falsy, and otherwise lets
evaluation continue. -/
def continue_or_raise (has_permission : Nat → Nat → Bool) (connection : Nat)
    (permission : Nat) : Except PermissionError Unit :=
  if has_permission permission connection then .ok () else .error .permissionDenied

/-- The loop body of `allow_connection`: for each wrapped permission in
order, `await permission()` (instantiate via the `AsyncCallable`), call its
`has_permission(connection, self)` (a pure check here, so the discarded
first call is a no-op), and `continue_or_raise_permission_exception`;
raising exits the loop, so later permissions are not evaluated. -/
def allow_connection_list (has_permission : Nat → Nat → Bool) (connection : Nat) :
    List (AsyncCallable Nat) → Except PermissionError Unit
  | [] => .ok ()
  | p :: rest =>
      match continue_or_raise has_permission connection p.fn with
      | .error e => .error e
      | .ok _ => allow_connection_list has_permission connection rest

/-- `allow_connection` (`routing/base.py`, lines 542-551): evaluate the
resolved permissions in order against the connection. -/
def allow_connection (has_permission : Nat → Nat → Bool) (h : Handler)
    (connection : Nat) : Except PermissionError Unit × Handler :=
  let rp := resolve_permissions h
  (allow_connection_list has_permission connection rp.1, rp.2)

theorem foldl_append_eq_flatten {α β : Type} (f : α → List β)
    (l : List α) (acc : List β) :
    l.foldl (fun a x => a ++ f x) acc = acc ++ (l.map f).flatten := by
  induction l generalizing acc with
  | nil => simp
  | cons x rest ih => simp [ih, List.append_assoc]

/-- **C3.**  On a handler whose permission cache is still `Void`,
`resolve_permissions` returns exactly the root-to-leaf concatenation of the
layers' permission lists (declaration order preserved inside each layer,
each check wrapped in `AsyncCallable`); and `allow_connection`'s evaluation
loop raises Permission-Denied at the first failing check, with the result
independent of whatever permissions follow the first denial (they are never
evaluated). -/
theorem resolve_permissions_order (h : Handler)
    (hcache : h._permissions = none)
    (has_permission : Nat → Nat → Bool) (connection : Nat) :
    (resolve_permissions h).1 =
      ((ownership_layers h.chain).map Layer.permissions).flatten.map AsyncCallable.mk
    ∧ ∀ (pre : List (AsyncCallable Nat)) (p : AsyncCallable Nat)
        (post post' : List (AsyncCallable Nat)),
        (∀ q ∈ pre, has_permission q.fn connection = true) →
        has_permission p.fn connection = false →
        allow_connection_list has_permission connection (pre ++ p :: post) =
          .error .permissionDenied
        ∧ allow_connection_list has_permission connection (pre ++ p :: post) =
          allow_connection_list has_permission connection (pre ++ p :: post') := by
  constructor
  · rw [resolve_permissions, hcache]
    simp only
    rw [foldl_append_eq_flatten Layer.permissions (ownership_layers h.chain) []]
    rfl
  · intro pre p post post' hpre hfail
    have key : ∀ post0, allow_connection_list has_permission connection
        (pre ++ p :: post0) = .error .permissionDenied := by
      intro post0
      induction pre with
      | nil =>
          simp only [List.nil_append, allow_connection_list, continue_or_raise,
            hfail]
          rfl
      | cons q qrest ih =>
          have hq : has_permission q.fn connection = true :=
            hpre q (List.mem_cons_self q qrest)
          have ihq := ih (fun r hr => hpre r (List.mem_cons_of_mem q hr))
          simp only [List.cons_append, allow_connection_list, continue_or_raise,
            hq, if_pos]
          exact ihq
    exact ⟨key post, (key post).trans (key post').symm⟩

/-- Witness for **C3**: a two-layer chain contributing permissions `[0]`
and `[1, 2]`; with a check that denies permission 1, evaluation fails at 1
and never looks at 2. -/
theorem resolve_permissions_order_witness :
    (resolve_permissions
        { chain := .node { permissions := [1, 2] }
            (.root { permissions := [0] }) }).1 =
      [⟨0⟩, ⟨1⟩, ⟨2⟩]
    ∧ allow_connection_list (fun p _ => p == 0) 7 [⟨0⟩, ⟨1⟩, ⟨2⟩] =
        .error .permissionDenied
    ∧ allow_connection_list (fun p _ => p == 0) 7 [⟨0⟩, ⟨1⟩, ⟨2⟩] =
        allow_connection_list (fun p _ => p == 0) 7 [⟨0⟩, ⟨1⟩] := by
  have main := resolve_permissions_order
    { chain := .node { permissions := [1, 2] } (.root { permissions := [0] }) }
    rfl (fun p _ => p == 0) 7
  have parts := main.2 [⟨0⟩] ⟨1⟩ [⟨2⟩] []
    (by intro q hq; simp at hq; rw [hq]; rfl) rfl
  exact ⟨by rw [main.1]; rfl, parts.1, parts.2⟩

/-! ## `get_exception_handlers` (`routing/base.py`, lines 492-501) -/

/-- `get_exception_handlers`: build a fresh mapping and `update` it with
each ownership layer's `exception_handlers` (root first), so an inner
layer's handler for the same exception key overwrites an outer one.
Despite its docstring's claim of memoization, the method consults and
stores no cache slot: the handler state is returned unchanged and the
merge re-runs on every call. -/
def get_exception_handlers (h : Handler) : List (String × Nat) × Handler :=
  ((ownership_layers h.chain).foldl
      (fun resolved layer => dictUpdate resolved layer.exception_handlers) [],
    h)

theorem findSome?_append {α β : Type} (l₁ l₂ : List α) (f : α → Option β) :
    (l₁ ++ l₂).findSome? f =
      (l₁.findSome? f).orElse (fun _ => l₂.findSome? f) := by
  induction l₁ with
  | nil => simp [List.findSome?]
  | cons a rest ih =>
      cases h : f a <;> simp [List.findSome?_cons, h, ih, Option.orElse]

theorem dictLookup_foldl_update {α : Type} (layers : List (List (String × α)))
    (acc : List (String × α)) (k : String) :
    dictLookup (layers.foldl dictUpdate acc) k =
      (layers.reverse.findSome? (fun l => dictLookup l.reverse k)).orElse
        (fun _ => dictLookup acc k) := by
  induction layers generalizing acc with
  | nil => simp [List.findSome?, Option.orElse]
  | cons l rest ih =>
      rw [List.foldl_cons, ih (dictUpdate acc l), List.reverse_cons,
        findSome?_append, dictLookup_update]
      cases h : rest.reverse.findSome? (fun l2 => dictLookup l2.reverse k) <;>
        cases h2 : dictLookup l.reverse k <;>
          simp [List.findSome?, h, h2, Option.orElse]

/-- **C10.**  `get_exception_handlers` merges the layers' exception-handler
mappings root-to-leaf: for every exception key the resulting binding is the
innermost (closest-to-handler) layer's binding (the last one within that
layer, per dict-update semantics), and the handler state is returned
unchanged — in particular the result is recomputed from the chain on every
call (it is the same whatever the cache slots hold), never cached. -/
theorem get_exception_handlers_correct (h : Handler) (k : String) :
    (get_exception_handlers h).2 = h
    ∧ dictLookup (get_exception_handlers h).1 k =
        (ownership_layers h.chain).reverse.findSome?
          (fun layer => dictLookup layer.exception_handlers.reverse k)
    ∧ (∀ h2 : Handler, h2.chain = h.chain →
        (get_exception_handlers h2).1 = (get_exception_handlers h).1) := by
  refine ⟨rfl, ?_, ?_⟩
  · have base := dictLookup_foldl_update
      ((ownership_layers h.chain).map Layer.exception_handlers) [] k
    rw [get_exception_handlers]
    simp only [List.foldl_map] at base
    rw [base, ← List.map_reverse, List.findSome?_map]
    have hcomp : ((fun l => dictLookup l.reverse k) ∘ Layer.exception_handlers) =
        (fun layer : Layer => dictLookup layer.exception_handlers.reverse k) := rfl
    rw [hcomp]
    cases hfs : (ownership_layers h.chain).reverse.findSome?
        (fun layer => dictLookup layer.exception_handlers.reverse k) <;>
      simp [Option.orElse, hfs, dictLookup]
  · intro h2 hchain
    rw [get_exception_handlers, get_exception_handlers, hchain]

/-- Witness for **C10** at a two-layer chain where both layers bind the key
`"ValueError"`: the inner (handler) layer's binding wins, and a handler
with a filled dependency cache computes the same mapping. -/
theorem get_exception_handlers_correct_witness :
    (get_exception_handlers
        { chain := .node { exception_handlers := [("ValueError", 10)] }
            (.root { exception_handlers := [("ValueError", 3), ("KeyError", 4)] }) }).2 =
      { chain := .node { exception_handlers := [("ValueError", 10)] }
          (.root { exception_handlers := [("ValueError", 3), ("KeyError", 4)] }) }
    ∧ dictLookup
        (get_exception_handlers
          { chain := .node { exception_handlers := [("ValueError", 10)] }
              (.root { exception_handlers := [("ValueError", 3), ("KeyError", 4)] }) }).1
        "ValueError" = some 10
    ∧ (get_exception_handlers
        { chain := .node { exception_handlers := [("ValueError", 10)] }
            (.root { exception_handlers := [("ValueError", 3), ("KeyError", 4)] }),
          _dependencies := some [] }).1 =
      (get_exception_handlers
        { chain := .node { exception_handlers := [("ValueError", 10)] }
            (.root { exception_handlers := [("ValueError", 3), ("KeyError", 4)] }) }).1 := by
  have main := get_exception_handlers_correct
    { chain := .node { exception_handlers := [("ValueError", 10)] }
        (.root { exception_handlers := [("ValueError", 3), ("KeyError", 4)] }) }
    "ValueError"
  exact ⟨main.1, by rw [main.2.1]; rfl, main.2.2 _ rfl⟩

/-! ## Response objects and the `create_*_handler` closures
(`routing/base.py`, lines 111-255) -/

/-- `get_headers` (`routing/base.py`, lines 517-527): project a
`ResponseHeader` mapping down to `{k: v.value}` (a fresh dict built by the
comprehension, insertion order preserved). -/
def get_headers (headers : List (String × ResponseHeader)) :
    List (String × Option String) :=
  dictUpdate [] (headers.map (fun kv => (kv.1, kv.2.value)))

/-- A wire response object as the handlers mutate it: status code, media
type, a header mapping, the esmerald `cookies` list (absent on raw
transport responses, which simply never read it), the cookies set through
`set_cookie`, the serialized body, and the background task. -/
structure Resp where
  status_code : Nat := 200
  media_type : Option MediaTypeV := none
  headers : List (String × Option String) := []
  cookies : List Cookie := []
  set_cookies : List (List (String × CVal)) := []
  body : String := ""
  background : Option Nat := none
deriving DecidableEq

/-- `response.set_cookie(**cookie)`: record the normalized cookie on the
response. -/
def Resp.set_cookie (r : Resp) (cookie : List (String × CVal)) : Resp :=
  { r with set_cookies := r.set_cookies ++ [cookie] }

/-- The header merge `{**self.get_headers(headers), **data.headers,
**self.allow_header}` shared by `create_response_handler` and
`create_starlette_response_handler`: later sources override earlier ones by
key. -/
def merged_headers (headers : List (String × ResponseHeader))
    (data_headers allow_header : List (String × Option String)) :
    List (String × Option String) :=
  dictUpdate (dictUpdate (get_headers headers) data_headers) allow_header

/-- Python truthiness of an optional `MediaType` (`if media_type:`): `None`
and the empty string are falsy, an `Enum` member is always truthy. -/
def truthyMedia : Option MediaTypeV → Bool
  | none => false
  | some (.enumMember _) => true
  | some (.plainStr s) => s != ""

/-- The closure returned by `create_response_handler` (lines 160-181)
applied to an esmerald `Response`: merge cookies via `get_cookies(
data.cookies, cookies)`, set them, override status code and media type when
truthy, then write the merged headers back into `data.headers`.
`allow_header` is `self.allow_header`, read at call time. -/
def apply_response_handler (cookies : List Cookie)
    (headers : List (String × ResponseHeader)) (status_code : Option Nat)
    (media_type : Option MediaTypeV)
    (allow_header : List (String × Option String)) (data : Resp) : Resp :=
  let merged := merged_headers headers data.headers allow_header
  let data1 := (get_cookies data.cookies cookies).foldl Resp.set_cookie data
  let data2 :=
    match status_code with
    | some n => if n != 0 then { data1 with status_code := n } else data1
    | none => data1
  let data3 :=
    if truthyMedia media_type then { data2 with media_type := media_type }
    else data2
  { data3 with headers := dictUpdate data3.headers merged }

/-- The closure returned by `create_json_response_handler` (lines 183-193)
applied to a pre-built JSON response: `if status_code:
data.status_code = status_code`, everything else untouched (`None` and `0`
are both falsy). -/
def apply_json_response_handler (status_code : Option Nat) (data : Resp) : Resp :=
  match status_code with
  | some n => if n != 0 then { data with status_code := n } else data
  | none => data

/-- The closure returned by `create_starlette_response_handler`
(lines 195-222) applied to a raw transport response: the cookie primitive
runs on `get_cookies(cookies, [])` (the handler cookies only — a raw
response has no `cookies` list), the header merge is the shared one, and
`data.media_type = media_type` is assigned unconditionally. -/
def apply_starlette_response_handler (cookies : List Cookie)
    (headers : List (String × ResponseHeader)) (media_type : Option MediaTypeV)
    (allow_header : List (String × Option String)) (data : Resp) : Resp :=
  let merged := merged_headers headers data.headers allow_header
  let data1 := (get_cookies cookies []).foldl Resp.set_cookie data
  let data2 := { data1 with media_type := media_type }
  { data2 with headers := dictUpdate data2.headers merged }

/-- An arbitrary handler return value for the fallback branch. -/
inductive PlainVal where
  | dict (d : List (String × String))
  | str (s : String)
deriving DecidableEq

/-- What the fallback handler's `data` resolves to: either an arbitrary
plain value or an already-built JSON response instance. -/
inductive DataVal where
  | plain (v : PlainVal)
  | jsonResponse (r : Resp)
deriving DecidableEq

/-- A possibly awaitable handler return value. -/
inductive RawData where
  | ready (v : DataVal)
  | awaitable (v : DataVal)
deriving DecidableEq

/-- `get_response_data` (lines 529-540): await the value if it is
awaitable, otherwise return it as is. -/
def get_response_data : RawData → DataVal
  | .ready v => v
  | .awaitable v => v

/-- Modelled from the spec: the response-class family constructor
`response_class(content=…, status_code=…, headers=…, media_type=…,
background=…)` (`esmerald/responses.py` is not under `src/`).  It stores
the status code, media type, headers and background task and serializes the
content into the body; `serialize` stands for the configured encoder and
`response_class_id` for which configured response class is used. -/
def response_class_init (serialize : PlainVal → String)
    (response_class_id : Nat) (content : PlainVal) (status_code : Nat)
    (headers : List (String × ResponseHeader)) (media_type : String)
    (background : Option Nat) : Resp :=
  { status_code := status_code,
    media_type := some (.plainStr media_type),
    headers := get_headers headers,
    body := serialize content,
    background := background }

/-- The closure returned by `create_handler` (lines 224-255) for arbitrary
return values: await the data if needed; a recognized JSON-response
instance is reused with status code and background overridden; any other
value is wrapped in the configured response class; finally the handler
cookies (`get_cookies(cookies, [])`) are set on the response. -/
def apply_plain_handler (serialize : PlainVal → String) (background : Option Nat)
    (cookies : List Cookie) (headers : List (String × ResponseHeader))
    (media_type : String) (response_class_id : Nat) (status_code : Nat)
    (data : RawData) : Resp :=
  let d := get_response_data data
  let response :=
    match d with
    | .jsonResponse r =>
        { r with status_code := status_code, background := background }
    | .plain v =>
        response_class_init serialize response_class_id v status_code headers
          media_type background
  (get_cookies cookies []).foldl Resp.set_cookie response

/-- `get_response_handler` (lines 352-403): when the `_response_handler`
slot is `Void`, select the strategy by static `is_class_and_subclass`
inspection of the declared return annotation — container, then pre-built
JSON response, then generic response, then transport-native response, then
the plain-value fallback — build the corresponding closure and cache it;
otherwise return the cached closure.  (`h.response_headers`,
`h.response_cookies` and `h.response_class_id` stand for the results of the
`get_response_headers` / `get_response_cookies` / `get_response_class`
accessors, which live outside `src/`.) -/
def get_response_handler (h : Handler) : BuiltHandler × Handler :=
  match h._response_handler with
  | some rh => (rh, h)
  | none =>
      let media_type := normalizeMediaType h.media_type
      let headers := h.response_headers
      let cookies := h.response_cookies
      let handler :=
        if h.ret_ann.subclassOfResponseContainer then
          BuiltHandler.containerHandler cookies h.media_type h.status_code headers
        else if h.ret_ann.subclassOfJSONResponse then
          BuiltHandler.jsonHandler (some h.status_code)
        else if h.ret_ann.subclassOfResponse then
          BuiltHandler.responseHandler cookies (some h.status_code)
            (some h.media_type) headers
        else if h.ret_ann.subclassOfStarletteResponse then
          BuiltHandler.starletteHandler cookies (some h.media_type) headers
        else
          BuiltHandler.plainHandler h.background cookies headers media_type
            h.response_class_id h.status_code
      (handler, { h with _response_handler := some handler })

/-- The five response strategies, as tags. -/
inductive StrategyTag where
  | container
  | json
  | response
  | starlette
  | plain
deriving DecidableEq

/-- Which strategy a built handler implements. -/
def BuiltHandler.tag : BuiltHandler → StrategyTag
  | .containerHandler .. => .container
  | .jsonHandler .. => .json
  | .responseHandler .. => .response
  | .starletteHandler .. => .starlette
  | .plainHandler .. => .plain

/-- Folding `set_cookie` over a list of normalized cookies appends them to
the response's set-cookie record and changes nothing else. -/
theorem foldl_set_cookie (r : Resp) (l : List (List (String × CVal))) :
    l.foldl Resp.set_cookie r = { r with set_cookies := r.set_cookies ++ l } := by
  induction l generalizing r with
  | nil => simp
  | cons c rest ih =>
      rw [List.foldl_cons, ih]
      simp [Resp.set_cookie, List.append_assoc]

/-- **C2.**  `get_response_handler` selects exactly one of the five
strategies by static inspection of the declared return-type annotation, in
precedence order container, pre-built JSON response, generic response,
transport-native response, plain-value fallback (first matching subclass
test wins — the selection depends only on the annotation flags, never on
any runtime value); the built closure is cached in the single-slot
`_response_handler` field on first access and every later call returns the
cached closure and state unchanged. -/
theorem get_response_handler_static_dispatch (h : Handler)
    (hcache : h._response_handler = none) :
    (h.ret_ann.subclassOfResponseContainer = true →
      (get_response_handler h).1.tag = .container)
    ∧ (h.ret_ann.subclassOfResponseContainer = false →
        h.ret_ann.subclassOfJSONResponse = true →
        (get_response_handler h).1.tag = .json)
    ∧ (h.ret_ann.subclassOfResponseContainer = false →
        h.ret_ann.subclassOfJSONResponse = false →
        h.ret_ann.subclassOfResponse = true →
        (get_response_handler h).1.tag = .response)
    ∧ (h.ret_ann.subclassOfResponseContainer = false →
        h.ret_ann.subclassOfJSONResponse = false →
        h.ret_ann.subclassOfResponse = false →
        h.ret_ann.subclassOfStarletteResponse = true →
        (get_response_handler h).1.tag = .starlette)
    ∧ (h.ret_ann.subclassOfResponseContainer = false →
        h.ret_ann.subclassOfJSONResponse = false →
        h.ret_ann.subclassOfResponse = false →
        h.ret_ann.subclassOfStarletteResponse = false →
        (get_response_handler h).1.tag = .plain)
    ∧ (get_response_handler h).2._response_handler = some (get_response_handler h).1
    ∧ get_response_handler ((get_response_handler h).2) = get_response_handler h := by
  cases hra : h.ret_ann with
  | mk c j r s =>
      cases c <;> cases j <;> cases r <;> cases s <;>
        simp [get_response_handler, hcache, hra, BuiltHandler.tag]

/-- Witness for **C2** at a handler whose annotation satisfies all four
subclass tests at once: the container strategy (the first in precedence
order) wins, and the second access returns the cached build unchanged. -/
theorem get_response_handler_static_dispatch_witness :
    (get_response_handler
        { ret_ann := ⟨true, true, true, true⟩ }).1.tag = .container
    ∧ get_response_handler
        ((get_response_handler { ret_ann := ⟨true, true, true, true⟩ }).2) =
      get_response_handler { ret_ann := ⟨true, true, true, true⟩ } := by
  have main := get_response_handler_static_dispatch
    { ret_ann := ⟨true, true, true, true⟩ } rfl
  exact ⟨main.1 rfl, main.2.2.2.2.2.2⟩

/-- **C8, counterexample.**  The claim says the JSON response handler
overrides the status code *whenever one is configured*.  Configure the
status code `0` (`status_code=0`, which is configured but falsy): the
handler leaves the response's status code at 204 — `if status_code:` skips
`0`, not only `None`. -/
theorem json_response_handler_zero_configured :
    apply_json_response_handler (some 0) { status_code := 204 } =
      ({ status_code := 204 } : Resp)
    ∧ (some 0 : Option Nat) ≠ none
    ∧ ({ status_code := 204 } : Resp).status_code ≠ 0 := by
  refine ⟨rfl, by simp, by simp⟩

/-- **C8** (amended).  The JSON response handler passes the pre-built
response through unchanged except that its status code is overridden when a
*truthy* (non-`None`, nonzero) status code is configured: with a nonzero
configured code the result is exactly the input with only `status_code`
replaced (headers, cookies, media type, body, background all untouched),
and with no configured code — or the falsy code `0` — the response is
returned untouched. -/
theorem json_response_handler_passthrough (status_code : Option Nat)
    (data : Resp) :
    (∀ n : Nat, status_code = some n → n ≠ 0 →
      apply_json_response_handler status_code data = { data with status_code := n })
    ∧ ((status_code = none ∨ status_code = some 0) →
      apply_json_response_handler status_code data = data) := by
  constructor
  · intro n hn hnz
    subst hn
    simp [apply_json_response_handler, hnz]
  · rintro (hn | hn) <;> subst hn <;> simp [apply_json_response_handler]

/-- Witness for **C8** with configured status 5 on a 204 response: only the
status code changes. -/
theorem json_response_handler_passthrough_witness :
    apply_json_response_handler (some 5) { status_code := 204 } =
      { ({ status_code := 204 } : Resp) with status_code := 5 } :=
  (json_response_handler_passthrough (some 5) { status_code := 204 }).1 5 rfl
    (by decide)

/-- **C7, counterexample.**  The claim says the transport-native handler
performs the same cookie merge as the generic handler, deduplicated by key.
Take two handler cookies sharing the key `"a"` and a response carrying no
cookies: the generic handler merges them through
`get_cookies(data.cookies, cookies)` and sets one cookie, while the
transport-native handler runs `get_cookies(cookies, [])` — every handler
cookie is local there, so both duplicates are set and the two handlers
produce different set-cookie records on identical input. -/
theorem starlette_handler_cookie_merge_differs :
    (apply_starlette_response_handler
        [{ key := "a", value := some "1" }, { key := "a", value := some "2" }]
        [] (some (.enumMember "text/plain")) [] {}).set_cookies.length = 2
    ∧ (apply_response_handler
        [{ key := "a", value := some "1" }, { key := "a", value := some "2" }]
        [] none none [] {}).set_cookies.length = 1
    ∧ (apply_starlette_response_handler
        [{ key := "a", value := some "1" }, { key := "a", value := some "2" }]
        [] (some (.enumMember "text/plain")) [] {}).set_cookies ≠
      (apply_response_handler
        [{ key := "a", value := some "1" }, { key := "a", value := some "2" }]
        [] none none [] {}).set_cookies := by
  refine ⟨rfl, rfl, by decide⟩

/-- **C7** (amended).  The transport-native response handler performs the
same *header* merge as the generic response handler — handler headers, then
data headers, then the computed allow header, later sources overriding
earlier ones by key — and sets the configured media type on the response
unconditionally; for cookies it applies the shared cookie primitive to the
handler cookies with an empty other list, so exactly the handler cookies
are set (serialized in order, without key deduplication) and the response's
own cookie list is not consulted. -/
theorem starlette_handler_correct (cookies : List Cookie)
    (headers : List (String × ResponseHeader)) (media_type : Option MediaTypeV)
    (status_code : Option Nat) (generic_media : Option MediaTypeV)
    (allow_header : List (String × Option String)) (data : Resp) (k : String) :
    (apply_starlette_response_handler cookies headers media_type allow_header
        data).headers =
      (apply_response_handler cookies headers status_code generic_media
        allow_header data).headers
    ∧ (apply_starlette_response_handler cookies headers media_type allow_header
        data).headers = dictUpdate data.headers
          (merged_headers headers data.headers allow_header)
    ∧ dictLookup (merged_headers headers data.headers allow_header) k =
        (dictLookup allow_header.reverse k).orElse (fun _ =>
          (dictLookup data.headers.reverse k).orElse (fun _ =>
            dictLookup (get_headers headers) k))
    ∧ (apply_starlette_response_handler cookies headers media_type allow_header
        data).set_cookies = data.set_cookies ++ cookies.map Cookie.dict
    ∧ (apply_starlette_response_handler cookies headers media_type allow_header
        data).media_type = media_type := by
  have hnative : apply_starlette_response_handler cookies headers media_type
      allow_header data =
      { data with
          media_type := media_type,
          set_cookies := data.set_cookies ++ cookies.map Cookie.dict,
          headers := dictUpdate data.headers
            (merged_headers headers data.headers allow_header) } := by
    rw [apply_starlette_response_handler]
    have hck : get_cookies cookies [] = cookies.map Cookie.dict := rfl
    rw [hck, foldl_set_cookie]
  refine ⟨?_, by rw [hnative], ?_, by rw [hnative], by rw [hnative]⟩
  · rw [hnative]
    simp only [apply_response_handler]
    rw [foldl_set_cookie]
    cases status_code with
    | none =>
        cases htm : truthyMedia generic_media <;> simp [htm]
    | some n =>
        cases hz : n != 0 <;>
          cases htm : truthyMedia generic_media <;> simp [hz, htm]
  · rw [merged_headers, dictLookup_update]
    cases h1 : dictLookup allow_header.reverse k with
    | some v => simp [Option.orElse]
    | none =>
        simp only [Option.orElse]
        rw [dictLookup_update]
        cases h2 : dictLookup data.headers.reverse k <;> simp [Option.orElse]

/-- Witness for **C7**: concrete one-cookie, one-header instance; the
native handler's headers match the generic handler's, the allow header
wins the key `"allow"`, the cookie is set, the media type is assigned. -/
theorem starlette_handler_correct_witness :
    (apply_starlette_response_handler [{ key := "c", value := some "7" }]
        [("x", { value := some "1" })] (some (.enumMember "text/html"))
        [("allow", some "GET")]
        { headers := [("allow", some "HEAD")] }).headers =
      (apply_response_handler [{ key := "c", value := some "7" }]
        [("x", { value := some "1" })] (some 200) none
        [("allow", some "GET")]
        { headers := [("allow", some "HEAD")] }).headers
    ∧ dictLookup
        (merged_headers [("x", { value := some "1" })] [("allow", some "HEAD")]
          [("allow", some "GET")]) "allow" = some (some "GET")
    ∧ (apply_starlette_response_handler [{ key := "c", value := some "7" }]
        [("x", { value := some "1" })] (some (.enumMember "text/html"))
        [("allow", some "GET")]
        { headers := [("allow", some "HEAD")] }).media_type =
      some (.enumMember "text/html") := by
  have main := starlette_handler_correct [{ key := "c", value := some "7" }]
    [("x", { value := some "1" })] (some (.enumMember "text/html"))
    (some 200) none [("allow", some "GET")]
    { headers := [("allow", some "HEAD")] } "allow"
  exact ⟨main.1, by rw [main.2.2.1]; rfl, main.2.2.2.2⟩

/-- **C5.**  A handler configured with status code 201 and a media type
normalizing to `"application/json"`, whose declared return annotation
matches none of the response classes, gets the plain-value fallback
handler; applied to a returned plain dictionary it produces a response
with status code 201, media type `"application/json"`, and body equal to
the serialized dictionary. -/
theorem plain_handler_round_trip (serialize : PlainVal → String) (h : Handler)
    (d : List (String × String))
    (hann : h.ret_ann = ⟨false, false, false, false⟩)
    (hcache : h._response_handler = none)
    (hstatus : h.status_code = 201)
    (hmedia : normalizeMediaType h.media_type = "application/json") :
    (get_response_handler h).1 =
      .plainHandler h.background h.response_cookies h.response_headers
        "application/json" h.response_class_id 201
    ∧ (apply_plain_handler serialize h.background h.response_cookies
          h.response_headers "application/json" h.response_class_id 201
          (.ready (.plain (.dict d)))).status_code = 201
    ∧ (apply_plain_handler serialize h.background h.response_cookies
          h.response_headers "application/json" h.response_class_id 201
          (.ready (.plain (.dict d)))).media_type =
        some (.plainStr "application/json")
    ∧ (apply_plain_handler serialize h.background h.response_cookies
          h.response_headers "application/json" h.response_class_id 201
          (.ready (.plain (.dict d)))).body = serialize (.dict d) := by
  have happ : apply_plain_handler serialize h.background h.response_cookies
      h.response_headers "application/json" h.response_class_id 201
      (.ready (.plain (.dict d))) =
      { response_class_init serialize h.response_class_id (.dict d) 201
          h.response_headers "application/json" h.background with
        set_cookies := (get_cookies h.response_cookies []) } := by
    rw [apply_plain_handler]
    simp only [get_response_data]
    rw [foldl_set_cookie]
    rfl
  refine ⟨?_, by rw [happ]; rfl, by rw [happ]; rfl, by rw [happ]; rfl⟩
  · rw [get_response_handler, hcache]
    simp [hann, hstatus, hmedia]

/-- A concrete serializer for the **C5** witness. -/
def serializeJSON : PlainVal → String
  | .dict d => String.intercalate ","
      (d.map (fun kv => kv.1 ++ ":" ++ kv.2))
  | .str s => s

/-- Witness for **C5** at a concrete handler (status 201, media type the
JSON enum member, fallback annotation) returning the dictionary
`{"k": "v"}`. -/
theorem plain_handler_round_trip_witness :
    (get_response_handler
        { status_code := 201, media_type := .enumMember "application/json" }).1 =
      .plainHandler none [] [] "application/json" 0 201
    ∧ (apply_plain_handler serializeJSON none [] [] "application/json" 0 201
        (.ready (.plain (.dict [("k", "v")])))).status_code = 201
    ∧ (apply_plain_handler serializeJSON none [] [] "application/json" 0 201
        (.ready (.plain (.dict [("k", "v")])))).media_type =
      some (.plainStr "application/json")
    ∧ (apply_plain_handler serializeJSON none [] [] "application/json" 0 201
        (.ready (.plain (.dict [("k", "v")])))).body =
      serializeJSON (.dict [("k", "v")]) :=
  plain_handler_round_trip serializeJSON
    { status_code := 201, media_type := .enumMember "application/json" }
    [("k", "v")] rfl rfl rfl rfl

/-! ## `_get_response_data` (`routing/base.py`, lines 313-350) -/

/-- A connection as the dispatch code can affect it: an identifier and the
number of times its body stream has been read/awaited. -/
structure Conn where
  id : Nat := 0
  body_reads : Nat := 0
deriving DecidableEq

/-- A raw kwarg value: either an extracted value or the awaitable returned
for a `data` (body) parameter, still to be awaited. -/
inductive KVal where
  | value (s : String)
  | awaitableBody (payload : String)
deriving DecidableEq

/-- Python truthiness of `if request_data:`: a missing entry is handled by
the caller, an empty-string value is falsy, an awaitable object is always
truthy. -/
def truthyKVal : KVal → Bool
  | .value s => s != ""
  | .awaitableBody _ => true

/-- The slice of `KwargsModel` that `_get_response_data` consults:
`has_kwargs` and the keys of `expected_dependencies` (the model itself is
built in `esmerald/kwargs.py`, outside `src/`; only these two members are
read here). -/
structure ParamModel where
  has_kwargs : Bool := false
  expected_dependencies : List String := []
deriving DecidableEq

/-- The collaborator operations `_get_response_data` invokes, each allowed
to touch the connection (`to_kwargs`, awaiting the body awaitable,
`resolve_dependency`, `parse_values_from_connection_kwargs`) plus the
handler function `fn` itself (given the optional `APIView` owner it is
bound to, and the parsed kwargs). -/
structure DispatchEnv where
  to_kwargs : Conn → List (String × KVal) × Conn
  await_data : Conn → KVal → KVal × Conn
  resolve_dependency : String → Conn → List (String × KVal) → KVal × Conn
  parse_values : Conn → List (String × KVal) → List (String × KVal) × Conn
  fn : Option Nat → List (String × KVal) → PlainVal

/-- `_get_response_data` (lines 313-350): when the parameter model has
kwargs, extract them, await a truthy `data` entry, resolve each expected
dependency in order feeding the accumulated kwargs, and validate; otherwise
`parsed_kwargs = {}`.  Either way, call the handler function (prefixed by
the owner when it is an `APIView`).  The handler body itself is embedded as
a pure function — its own effects are outside this dispatch layer. -/
def _get_response_data (env : DispatchEnv) (pm : ParamModel)
    (owner_apiview : Option Nat) (request : Conn) : PlainVal × Conn :=
  if pm.has_kwargs then
    let step1 := env.to_kwargs request
    let step2 :=
      match dictLookup step1.1 "data" with
      | some v =>
          if truthyKVal v then
            let awaited := env.await_data step1.2 v
            (dictAssign step1.1 "data" awaited.1, awaited.2)
          else step1
      | none => step1
    let step3 := pm.expected_dependencies.foldl
      (fun acc dep =>
        let resolved := env.resolve_dependency dep acc.2 acc.1
        (dictAssign acc.1 dep resolved.1, resolved.2))
      step2
    let parsed := env.parse_values step3.2 step3.1
    (env.fn owner_apiview parsed.1, parsed.2)
  else
    (env.fn owner_apiview [], request)

/-- **C9.**  When the handler's parameter model declares no parameters
(`has_kwargs` false), `_get_response_data` invokes the handler with an
empty argument set and returns the connection untouched — for *every*
possible behaviour of the extraction, body-await, dependency-resolution and
validation collaborators, so the connection body is never read or awaited
during dispatch. -/
theorem no_kwargs_short_circuit (env : DispatchEnv) (pm : ParamModel)
    (owner_apiview : Option Nat) (request : Conn)
    (hnk : pm.has_kwargs = false) :
    _get_response_data env pm owner_apiview request = (env.fn owner_apiview [], request)
    ∧ ∀ env2 : DispatchEnv, env2.fn = env.fn →
        _get_response_data env2 pm owner_apiview request =
          _get_response_data env pm owner_apiview request := by
  constructor
  · rw [_get_response_data, if_neg (by rw [hnk]; simp)]
  · intro env2 hfn
    rw [_get_response_data, if_neg (by rw [hnk]; simp),
      _get_response_data, if_neg (by rw [hnk]; simp), hfn]

/-- A body-counting environment for the **C9** witness: every collaborator
that could touch the body increments `body_reads`; the handler returns a
constant string. -/
def countingEnv : DispatchEnv where
  to_kwargs := fun c => ([("data", .awaitableBody "payload")],
    { c with body_reads := c.body_reads + 1 })
  await_data := fun c v => (v, { c with body_reads := c.body_reads + 1 })
  resolve_dependency := fun _ c _ => (.value "dep",
    { c with body_reads := c.body_reads + 1 })
  parse_values := fun c kw => (kw, c)
  fn := fun _ _ => .str "ok"

/-- Witness for **C9**: with `has_kwargs = false` the counting environment
never fires — the body-read counter stays 0 and the result is the bare
handler value. -/
theorem no_kwargs_short_circuit_witness :
    _get_response_data countingEnv { has_kwargs := false } none { id := 3 } =
      (.str "ok", { id := 3 })
    ∧ (_get_response_data countingEnv { has_kwargs := false } none
        { id := 3 }).2.body_reads = 0 := by
  have main := no_kwargs_short_circuit countingEnv { has_kwargs := false }
    none { id := 3 } rfl
  exact ⟨main.1, by rw [main.1]⟩

end Esmerald
